import Mathlib

/-!
Verification of the anomaly-detection core of the azureanalyticshub repository
(`src/automation/functions/anomaly-detection/main.py`).

The statistical core is embedded shallowly over the reals:
`npMean`, `npVar`, `npStd` embed `np.mean` / `np.std` (numpy's default
`ddof=0`, i.e. population standard deviation); `_determine_severity`,
`classifyPoint`, `detectResourceWithCarry`, `detect_anomalies`,
`trigger_alerts`, `save_anomaly_results` and `main` embed the functions of
the same names (the per-point classification inside the loop of
`detect_anomalies` is factored out as `classifyPoint`, and the per-resource
body of the loop as `detectResourceWithCarry`, whose second component is
the value of the `mean_cost` / `std_cost` variables after the trailing
7-day reassignment at the end of the loop body).  Collaborator side effects
(blob upload, notification channels) are passed in as `Except` outcomes,
so that a raising collaborator is an `Except.error` and the control flow of
the `try` / `except` blocks is explicit.
-/

/-- Embeds `np.mean(l)`: sum divided by length. -/
noncomputable def npMean (l : List ℝ) : ℝ := l.sum / l.length

/-- Embeds the variance inside `np.std(l)` with numpy's default `ddof=0`:
the mean of the squared deviations from the mean (population variance). -/
noncomputable def npVar (l : List ℝ) : ℝ :=
  ((l.map (fun x => (x - npMean l) ^ 2)).sum) / l.length

/-- Embeds `np.std(l)` (numpy default `ddof=0`): the population standard
deviation, the square root of `npVar`. -/
noncomputable def npStd (l : List ℝ) : ℝ := Real.sqrt (npVar l)

/-- Modelled from the spec: the Bessel-corrected *sample* standard deviation
(denominator `n − 1`), which the claim contrasts with the population
standard deviation actually used by the code. -/
noncomputable def besselStd (l : List ℝ) : ℝ :=
  Real.sqrt (((l.map (fun x => (x - npMean l) ^ 2)).sum) / (l.length - 1 : ℕ))

/-- The last `n` elements of a list: embeds the Python slice `l[-n:]`. -/
def lastN (n : Nat) (l : List ℝ) : List ℝ := l.drop (l.length - n)

/-- The detector thresholds read from the environment in
`AnomalyDetector.__init__` (lines 53-55). -/
structure Config where
  z_score_threshold : ℝ
  min_cost_threshold : ℝ
  confidence_threshold : ℝ

/-- The default thresholds: `Z_SCORE_THRESHOLD=2.0`, `MIN_COST_THRESHOLD=10.0`,
`CONFIDENCE_THRESHOLD=0.8`. -/
noncomputable def defaultConfig : Config :=
  { z_score_threshold := 2
    min_cost_threshold := 10
    confidence_threshold := 8 / 10 }

/-- Embeds the `AnomalyResult` dataclass (lines 26-40). -/
structure AnomalyResult where
  resource_id : String
  subscription_id : String
  date : String
  actual_cost : ℝ
  expected_cost : ℝ
  variance : ℝ
  variance_percentage : ℝ
  z_score : ℝ
  anomaly_type : String
  severity : String
  is_anomaly : Bool
  confidence : ℝ

/-- The z-score computed at line 170: `(cost - mean_cost) / std_cost`. -/
noncomputable def zScoreOf (mean_cost std_cost cost : ℝ) : ℝ :=
  (cost - mean_cost) / std_cost

/-- Embeds `AnomalyDetector._determine_severity` (lines 216-236). -/
noncomputable def _determine_severity (z_score actual_cost expected_cost : ℝ) : String :=
  if |z_score| ≥ 3 ∨ |actual_cost - expected_cost| ≥ 1000 then "High"
  else if |z_score| ≥ 2 ∨ |actual_cost - expected_cost| ≥ 100 then "Medium"
  else "Low"

/-- The body of the per-point loop of `detect_anomalies` (lines 169-200):
given the precomputed baseline, either build the `AnomalyResult` for one
`(date, cost)` point or produce nothing. -/
noncomputable def classifyPoint (cfg : Config) (resource_id subscription_id : String)
    (mean_cost std_cost : ℝ) (dc : String × ℝ) : Option AnomalyResult :=
  let z_score := zScoreOf mean_cost std_cost dc.2
  if |z_score| ≥ cfg.z_score_threshold ∧ dc.2 ≥ cfg.min_cost_threshold then
    some
      { resource_id := resource_id
        subscription_id := subscription_id
        date := dc.1
        actual_cost := dc.2
        expected_cost := mean_cost
        variance := dc.2 - mean_cost
        variance_percentage :=
          if mean_cost > 0 then (dc.2 - mean_cost) / mean_cost * 100 else 0
        z_score := z_score
        anomaly_type := if dc.2 > mean_cost then "Spike" else "Drop"
        severity := _determine_severity z_score dc.2 mean_cost
        is_anomaly := true
        confidence := min 1 (|z_score| / 3) }
  else none

/-- One per-resource daily series as assembled by lines 148-159 of
`detect_anomalies`: the `(date, summed cost)` rows of `daily_costs` for one
`resourceId`, sorted ascending by date, together with the resource's
`subscriptionId`. -/
structure ResourceSeries where
  resource_id : String
  subscription_id : String
  series : List (String × ℝ)

/-- The cost column of a series: `resource_data['actualCost'].values`. -/
def costsOf (r : ResourceSeries) : List ℝ := r.series.map Prod.snd

/-- The final value of the baseline variables `mean_cost` / `std_cost`. -/
structure Baseline where
  mean : ℝ
  std : ℝ

/-- The body of the per-resource loop of `detect_anomalies` (lines 150-206):
skip series shorter than 7 points (line 154) and series whose baseline
standard deviation over all costs but the last is zero (line 165); otherwise
score every point against the baseline of `costs[:-1]` (lines 162-200) and
finally reassign the baseline variables to the statistics of the trailing
7-day window `costs[-7:]` (lines 204-206).  The first component is the list
of appended `AnomalyResult`s; the second is the value held by the
`mean_cost` / `std_cost` variables at the end of the loop body (`none` when
the `continue` statements skip the body). -/
noncomputable def detectResourceWithCarry (cfg : Config) (r : ResourceSeries) :
    List AnomalyResult × Option Baseline :=
  if r.series.length < 7 then ([], none)
  else
    let costs := costsOf r
    let mean_cost := npMean costs.dropLast
    let std_cost := npStd costs.dropLast
    if std_cost = 0 then ([], none)
    else
      (r.series.filterMap
        (classifyPoint cfg r.resource_id r.subscription_id mean_cost std_cost),
       some { mean := npMean (lastN 7 costs), std := npStd (lastN 7 costs) })

/-- The anomalies appended for one resource. -/
noncomputable def detectResource (cfg : Config) (r : ResourceSeries) :
    List AnomalyResult :=
  (detectResourceWithCarry cfg r).1

/-- Embeds `AnomalyDetector.detect_anomalies` (lines 134-214) applied to the
assembled per-resource series: the concatenation of the per-resource
anomalies in resource order. -/
noncomputable def detect_anomalies (cfg : Config) (rs : List ResourceSeries) :
    List AnomalyResult :=
  rs.flatMap (detectResource cfg)

/-- The z-scores computed at line 170 for every point of a cost series,
against the single baseline of `costs[:-1]` computed at lines 162-163. -/
noncomputable def seriesZScores (costs : List ℝ) : List ℝ :=
  costs.map (zScoreOf (npMean costs.dropLast) (npStd costs.dropLast))

/-- A series with one further day appended, as in an incremental run against
future data. -/
def appendDay (r : ResourceSeries) (dc : String × ℝ) : ResourceSeries :=
  { r with series := r.series ++ [dc] }

/-- Embeds the `alert_counts` dictionary of `trigger_alerts` (line 303). -/
structure AlertCounts where
  High : Nat
  Medium : Nat
  Low : Nat
deriving DecidableEq

/-- Embeds `AnomalyDetector.trigger_alerts` (lines 293-331).  Each `notify`
argument is the outcome of the corresponding collaborator call
(`_send_high_severity_alert`, `_log_medium_severity_anomalies`,
`_log_low_severity_anomalies`); a raising collaborator is `Except.error`,
and the `except` block at lines 327-329 logs and re-raises, so the error
propagates and the counts assembled so far are discarded. -/
noncomputable def trigger_alerts (notifyHigh logMedium logLow : Except String Unit)
    (anomalies : List AnomalyResult) : Except String AlertCounts :=
  let high := anomalies.filter (fun a => decide (a.severity = "High"))
  let medium := anomalies.filter (fun a => decide (a.severity = "Medium"))
  let low := anomalies.filter (fun a => decide (a.severity = "Low"))
  match (if high.isEmpty then Except.ok () else notifyHigh) with
  | Except.error e => Except.error e
  | Except.ok _ =>
    match (if medium.isEmpty then Except.ok () else logMedium) with
    | Except.error e => Except.error e
    | Except.ok _ =>
      match (if low.isEmpty then Except.ok () else logLow) with
      | Except.error e => Except.error e
      | Except.ok _ =>
        Except.ok
          { High := high.length, Medium := medium.length, Low := low.length }

/-- Embeds `AnomalyDetector.save_anomaly_results` (lines 238-291).  When no
blob client is configured the save is skipped and `None` returned
(lines 249-251); otherwise the upload collaborator runs, and on failure the
`except` block (lines 289-291) logs and re-raises, so the error propagates. -/
noncomputable def save_anomaly_results (hasBlobClient : Bool)
    (upload : Except String Unit) (blobName : String)
    (_anomalies : List AnomalyResult) : Except String (Option String) :=
  if hasBlobClient = false then Except.ok none
  else
    match upload with
    | Except.ok _ => Except.ok (some blobName)
    | Except.error e => Except.error e

/-- The success payload of `main` (lines 400-419). -/
structure RunSummary where
  subscription_id : String
  analysis_period_days : Nat
  total_resources_analyzed : Nat
  anomalies_detected : Nat
  alert_counts : AlertCounts
  results_blob_path : Option String
  high_severity_anomalies : List AnomalyResult

/-- The possible HTTP responses of `main`: the 200 summary (lines 423-427),
the 200 no-data response (lines 379-388), the 400 missing-parameter response
(lines 364-369), and the 500 response of the outer `except` block
(lines 429-435), whose JSON body carries only the error message. -/
inductive HttpResponse where
  | ok (summary : RunSummary)
  | okNoData (subscription_id : String)
  | badRequest (error : String)
  | serverError (error : String)

/-- Embeds the Azure Function entry point `main` (lines 348-435) over
already-assembled per-resource series.  `body` is the parsed request body
(`subscription_id`, `days_back`); `costData` stands for the retrieved cost
data, one entry per distinct resource; the collaborator outcomes are passed
in as for `save_anomaly_results` and `trigger_alerts`.  An `Except.error`
from either collaborator propagates to the outer `except` block, which
returns the 500 response. -/
noncomputable def main (body : Option (String × Nat)) (costData : List ResourceSeries)
    (cfg : Config) (hasBlobClient : Bool) (upload : Except String Unit)
    (blobName : String) (notifyHigh logMedium logLow : Except String Unit) :
    HttpResponse :=
  match body with
  | none => HttpResponse.badRequest "subscription_id parameter is required"
  | some (subscription_id, days_back) =>
    if costData.isEmpty then HttpResponse.okNoData subscription_id
    else
      let anomalies := detect_anomalies cfg costData
      match save_anomaly_results hasBlobClient upload blobName anomalies with
      | Except.error e => HttpResponse.serverError e
      | Except.ok blob_path =>
        match trigger_alerts notifyHigh logMedium logLow anomalies with
        | Except.error e => HttpResponse.serverError e
        | Except.ok alert_counts =>
          HttpResponse.ok
            { subscription_id := subscription_id
              analysis_period_days := days_back
              total_resources_analyzed := costData.length
              anomalies_detected := anomalies.length
              alert_counts := alert_counts
              results_blob_path := blob_path
              high_severity_anomalies :=
                anomalies.filter (fun a => decide (a.severity = "High")) }

/-- A concrete 7-day series: six alternating days at 10 and 14 (baseline
mean 12, population stddev 2) followed by a spike to 20. -/
noncomputable def demoR : ResourceSeries :=
  { resource_id := "vm-1"
    subscription_id := "sub"
    series :=
      [("d1", 10), ("d2", 14), ("d3", 10), ("d4", 14), ("d5", 10), ("d6", 14),
       ("d7", 20)] }

/-- The single anomaly the detector emits for `demoR` under the default
thresholds: z-score `(20 - 12) / 2 = 4`, severity High, confidence 1. -/
noncomputable def demoRecord : AnomalyResult :=
  { resource_id := "vm-1"
    subscription_id := "sub"
    date := "d7"
    actual_cost := 20
    expected_cost := 12
    variance := 8
    variance_percentage := 200 / 3
    z_score := 4
    anomaly_type := "Spike"
    severity := "High"
    is_anomaly := true
    confidence := 1 }

/-- A concrete perfectly flat 7-day series (cost 5 every day): its baseline
standard deviation is zero, so it is degenerate. -/
noncomputable def flatR : ResourceSeries :=
  { resource_id := "vm-flat"
    subscription_id := "sub"
    series :=
      [("e1", 5), ("e2", 5), ("e3", 5), ("e4", 5), ("e5", 5), ("e6", 5),
       ("e7", 5)] }

/-- A concrete 8-day alternating series (0, 2, 0, 2, ...): long enough to be
scored, and its trailing 7-day mean (8/7) differs from the mean of the full
series (1). -/
noncomputable def oldR : ResourceSeries :=
  { resource_id := "vm-old"
    subscription_id := "sub"
    series :=
      [("d1", 0), ("d2", 2), ("d3", 0), ("d4", 2), ("d5", 0), ("d6", 2),
       ("d7", 0), ("d8", 2)] }

/-! ### Helper lemmas about sums, means and the population standard deviation -/

theorem list_sum_eq_zero_iff (l : List ℝ) (h : ∀ x ∈ l, 0 ≤ x) :
    l.sum = 0 ↔ ∀ x ∈ l, x = 0 := by
  induction l with
  | nil => simp
  | cons a t ih =>
    have ha : 0 ≤ a := h a (by simp)
    have ht : ∀ x ∈ t, 0 ≤ x := fun x hx => h x (by simp [hx])
    have hts : 0 ≤ t.sum := List.sum_nonneg ht
    rw [List.sum_cons]
    constructor
    · intro hs
      have ha0 : a = 0 := by linarith
      have hts0 : t.sum = 0 := by linarith
      intro x hx
      rcases List.mem_cons.mp hx with rfl | hxt
      · exact ha0
      · exact ((ih ht).mp hts0) x hxt
    · intro hall
      rw [hall a (by simp), (ih ht).mpr (fun x hx => hall x (by simp [hx])), add_zero]

theorem list_sum_const (l : List ℝ) (c : ℝ) (h : ∀ x ∈ l, x = c) :
    l.sum = l.length * c := by
  induction l with
  | nil => simp
  | cons a t ih =>
    rw [List.sum_cons, ih (fun x hx => h x (by simp [hx])), h a (by simp),
      List.length_cons]
    push_cast
    ring

theorem npMean_const (l : List ℝ) (c : ℝ) (hne : l ≠ []) (h : ∀ x ∈ l, x = c) :
    npMean l = c := by
  have hlen : (l.length : ℝ) ≠ 0 := by
    simpa using fun h0 => hne (List.length_eq_zero.mp h0)
  rw [npMean, list_sum_const l c h, mul_comm, mul_div_assoc, div_self hlen, mul_one]

theorem npVar_nonneg (l : List ℝ) : 0 ≤ npVar l := by
  apply div_nonneg
  · apply List.sum_nonneg
    intro x hx
    obtain ⟨y, _, rfl⟩ := List.mem_map.mp hx
    positivity
  · positivity

theorem npStd_eq_zero_iff (l : List ℝ) (hne : l ≠ []) :
    npStd l = 0 ↔ ∀ x ∈ l, x = npMean l := by
  have hlen : (l.length : ℝ) ≠ 0 := by
    simpa using fun h0 => hne (List.length_eq_zero.mp h0)
  have hsq : ∀ y ∈ l.map (fun x => (x - npMean l) ^ 2), 0 ≤ y := by
    intro y hy
    obtain ⟨x, _, rfl⟩ := List.mem_map.mp hy
    positivity
  rw [npStd, Real.sqrt_eq_zero']
  constructor
  · intro hv
    have hv0 : npVar l = 0 := le_antisymm hv (npVar_nonneg l)
    rw [npVar, div_eq_zero_iff] at hv0
    rcases hv0 with hs | hl0
    · intro x hx
      have hx2 : (x - npMean l) ^ 2 = 0 :=
        (list_sum_eq_zero_iff _ hsq).mp hs _ (List.mem_map.mpr ⟨x, hx, rfl⟩)
      have := (pow_eq_zero_iff two_ne_zero).mp hx2
      linarith [sub_eq_zero.mp this]
    · exact absurd hl0 hlen
  · intro hall
    have hz : ∀ y ∈ l.map (fun x => (x - npMean l) ^ 2), y = 0 := by
      intro y hy
      obtain ⟨x, hx, rfl⟩ := List.mem_map.mp hy
      rw [hall x hx]
      ring
    rw [npVar, (list_sum_eq_zero_iff _ hsq).mpr hz, zero_div]

theorem npStd_ne_zero_of_two (l : List ℝ) (x y : ℝ) (hx : x ∈ l) (hy : y ∈ l)
    (hxy : x ≠ y) : npStd l ≠ 0 := by
  intro h
  have hne : l ≠ [] := by
    rintro rfl
    simp at hx
  have hall := (npStd_eq_zero_iff l hne).mp h
  exact hxy ((hall x hx).trans (hall y hy).symm)

theorem npStd_const (l : List ℝ) (c : ℝ) (h : ∀ x ∈ l, x = c) : npStd l = 0 := by
  rcases eq_or_ne l [] with rfl | hne
  · simp [npStd, npVar]
  · rw [npStd_eq_zero_iff l hne]
    intro x hx
    rw [h x hx, npMean_const l c hne h]

/-! ### Helper lemmas about the structure of the detector -/

theorem detectResourceWithCarry_pos (cfg : Config) (r : ResourceSeries)
    (h7 : ¬ r.series.length < 7) (hstd : npStd (costsOf r).dropLast ≠ 0) :
    detectResourceWithCarry cfg r =
      (r.series.filterMap
        (classifyPoint cfg r.resource_id r.subscription_id
          (npMean (costsOf r).dropLast) (npStd (costsOf r).dropLast)),
       some { mean := npMean (lastN 7 (costsOf r)),
              std := npStd (lastN 7 (costsOf r)) }) := by
  simp only [detectResourceWithCarry]
  rw [if_neg h7, if_neg hstd]

theorem detectResourceWithCarry_short (cfg : Config) (r : ResourceSeries)
    (h7 : r.series.length < 7) : detectResourceWithCarry cfg r = ([], none) := by
  simp only [detectResourceWithCarry]
  rw [if_pos h7]

theorem detectResourceWithCarry_flat (cfg : Config) (r : ResourceSeries)
    (hstd : npStd (costsOf r).dropLast = 0) :
    detectResourceWithCarry cfg r = ([], none) := by
  rcases Nat.lt_or_ge r.series.length 7 with h | h
  · exact detectResourceWithCarry_short cfg r h
  · simp only [detectResourceWithCarry]
    rw [if_neg (Nat.not_lt.mpr h), if_pos hstd]

theorem classifyPoint_some_iff (cfg : Config) (rid sid : String) (m s : ℝ)
    (dc : String × ℝ) (a : AnomalyResult) :
    classifyPoint cfg rid sid m s dc = some a ↔
      (|zScoreOf m s dc.2| ≥ cfg.z_score_threshold ∧
        dc.2 ≥ cfg.min_cost_threshold) ∧
      a = { resource_id := rid
            subscription_id := sid
            date := dc.1
            actual_cost := dc.2
            expected_cost := m
            variance := dc.2 - m
            variance_percentage := if m > 0 then (dc.2 - m) / m * 100 else 0
            z_score := zScoreOf m s dc.2
            anomaly_type := if dc.2 > m then "Spike" else "Drop"
            severity := _determine_severity (zScoreOf m s dc.2) dc.2 m
            is_anomaly := true
            confidence := min 1 (|zScoreOf m s dc.2| / 3) } := by
  simp only [classifyPoint]
  split
  · rename_i h
    simp [h, eq_comm]
  · rename_i h
    simp [h]

theorem classifyPoint_isSome_iff (cfg : Config) (rid sid : String) (m s : ℝ)
    (dc : String × ℝ) :
    (classifyPoint cfg rid sid m s dc).isSome = true ↔
      (|zScoreOf m s dc.2| ≥ cfg.z_score_threshold ∧
        dc.2 ≥ cfg.min_cost_threshold) := by
  simp only [classifyPoint]
  split
  · rename_i h
    simp [h]
  · rename_i h
    simp [h]

theorem mem_detectResource (cfg : Config) (r : ResourceSeries) (a : AnomalyResult)
    (ha : a ∈ detectResource cfg r) :
    ∃ dc ∈ r.series,
      classifyPoint cfg r.resource_id r.subscription_id
        (npMean (costsOf r).dropLast) (npStd (costsOf r).dropLast) dc = some a := by
  by_cases h7 : r.series.length < 7
  · rw [detectResource, detectResourceWithCarry_short cfg r h7] at ha
    simp at ha
  · by_cases hstd : npStd (costsOf r).dropLast = 0
    · rw [detectResource, detectResourceWithCarry_flat cfg r hstd] at ha
      simp at ha
    · rw [detectResource, detectResourceWithCarry_pos cfg r h7 hstd] at ha
      exact List.mem_filterMap.mp ha

theorem record_fields (cfg : Config) (r : ResourceSeries) (a : AnomalyResult)
    (ha : a ∈ detectResource cfg r) :
    a.expected_cost = npMean (costsOf r).dropLast ∧
    a.z_score = (a.actual_cost - npMean (costsOf r).dropLast) /
      npStd (costsOf r).dropLast ∧
    a.variance = a.actual_cost - a.expected_cost ∧
    a.anomaly_type = (if a.actual_cost > a.expected_cost then "Spike" else "Drop") ∧
    a.severity = _determine_severity a.z_score a.actual_cost a.expected_cost ∧
    a.confidence = min 1 (|a.z_score| / 3) ∧
    a.is_anomaly = true ∧
    |a.z_score| ≥ cfg.z_score_threshold ∧ a.actual_cost ≥ cfg.min_cost_threshold := by
  obtain ⟨dc, _, hcl⟩ := mem_detectResource cfg r a ha
  rw [classifyPoint_some_iff] at hcl
  obtain ⟨⟨hz, hc⟩, rfl⟩ := hcl
  exact ⟨rfl, rfl, rfl, rfl, rfl, rfl, rfl, hz, hc⟩

/-! ### Concrete evaluations used by the witnesses -/

theorem costsOf_demoR : costsOf demoR = [10, 14, 10, 14, 10, 14, 20] := rfl

theorem demoR_dropLast : (costsOf demoR).dropLast = [10, 14, 10, 14, 10, 14] := rfl

theorem npMean_demo : npMean [(10 : ℝ), 14, 10, 14, 10, 14] = 12 := by
  norm_num [npMean]

theorem npVar_demo : npVar [(10 : ℝ), 14, 10, 14, 10, 14] = 4 := by
  simp only [npVar, npMean_demo]
  norm_num

theorem npStd_demo : npStd [(10 : ℝ), 14, 10, 14, 10, 14] = 2 := by
  rw [npStd, npVar_demo, show (4 : ℝ) = 2 ^ 2 by norm_num]
  exact Real.sqrt_sq (by norm_num)

theorem classify_demo_10 (d : String) :
    classifyPoint defaultConfig "vm-1" "sub" 12 2 (d, 10) = none := by
  simp only [classifyPoint, zScoreOf, defaultConfig]
  norm_num

theorem classify_demo_14 (d : String) :
    classifyPoint defaultConfig "vm-1" "sub" 12 2 (d, 14) = none := by
  simp only [classifyPoint, zScoreOf, defaultConfig]
  norm_num

theorem classify_demo_20 :
    classifyPoint defaultConfig "vm-1" "sub" 12 2 ("d7", 20) = some demoRecord := by
  rw [classifyPoint_some_iff]
  constructor
  · simp only [zScoreOf, defaultConfig]
    norm_num
  · simp only [demoRecord, zScoreOf, _determine_severity]
    norm_num

theorem demoR_length : ¬ demoR.series.length < 7 := by
  simp [demoR]

theorem demoR_std_ne : npStd (costsOf demoR).dropLast ≠ 0 := by
  rw [demoR_dropLast, npStd_demo]
  norm_num

theorem detect_demo : detectResource defaultConfig demoR = [demoRecord] := by
  have hm : npMean (costsOf demoR).dropLast = 12 := by rw [demoR_dropLast, npMean_demo]
  have hs : npStd (costsOf demoR).dropLast = 2 := by rw [demoR_dropLast, npStd_demo]
  rw [detectResource, detectResourceWithCarry_pos defaultConfig demoR demoR_length
    demoR_std_ne, hm, hs]
  show demoR.series.filterMap
    (classifyPoint defaultConfig demoR.resource_id demoR.subscription_id 12 2) =
    [demoRecord]
  simp only [demoR, List.filterMap_cons, classify_demo_10, classify_demo_14,
    classify_demo_20, List.filterMap_nil]

theorem detect_all_demo :
    detect_anomalies defaultConfig [demoR] = [demoRecord] := by
  simp [detect_anomalies, detect_demo]

theorem trigger_demo :
    trigger_alerts (Except.ok ()) (Except.ok ()) (Except.ok ()) [demoRecord] =
      Except.ok { High := 1, Medium := 0, Low := 0 } := by
  simp [trigger_alerts, demoRecord]

theorem flatR_dropLast : (costsOf flatR).dropLast = [5, 5, 5, 5, 5, 5] := rfl

theorem flatR_std : npStd (costsOf flatR).dropLast = 0 := by
  rw [flatR_dropLast]
  exact npStd_const _ 5 (by simp)

theorem costsOf_oldR : costsOf oldR = [0, 2, 0, 2, 0, 2, 0, 2] := rfl

theorem oldR_dropLast : (costsOf oldR).dropLast = [0, 2, 0, 2, 0, 2, 0] := rfl

theorem oldR_length : ¬ oldR.series.length < 7 := by
  simp [oldR]

theorem oldR_std_ne : npStd (costsOf oldR).dropLast ≠ 0 := by
  rw [oldR_dropLast]
  exact npStd_ne_zero_of_two _ 0 2 (by simp) (by simp) (by norm_num)

theorem lastN_oldR : lastN 7 (costsOf oldR) = [2, 0, 2, 0, 2, 0, 2] := rfl

theorem npMean_last7_oldR : npMean [(2 : ℝ), 0, 2, 0, 2, 0, 2] = 8 / 7 := by
  norm_num [npMean]

theorem npMean_oldR_full : npMean [(0 : ℝ), 2, 0, 2, 0, 2, 0, 2] = 1 := by
  norm_num [npMean]

/-! ### Helper lemmas about severity partitioning and alert routing -/

theorem severity_range (z c m : ℝ) :
    _determine_severity z c m = "High" ∨ _determine_severity z c m = "Medium" ∨
      _determine_severity z c m = "Low" := by
  rw [_determine_severity]
  split
  · exact Or.inl rfl
  · split
    · exact Or.inr (Or.inl rfl)
    · exact Or.inr (Or.inr rfl)

theorem three_filter_length (l : List AnomalyResult)
    (hl : ∀ a ∈ l,
      a.severity = "High" ∨ a.severity = "Medium" ∨ a.severity = "Low") :
    (l.filter (fun a => decide (a.severity = "High"))).length +
      (l.filter (fun a => decide (a.severity = "Medium"))).length +
      (l.filter (fun a => decide (a.severity = "Low"))).length = l.length := by
  induction l with
  | nil => simp
  | cons a t ih =>
    have ht := ih (fun x hx => hl x (by simp [hx]))
    rcases hl a (by simp) with h | h | h <;>
      simp only [List.filter_cons, h] <;> simp <;> omega

theorem trigger_alerts_ok (nH nM nL : Except String Unit)
    (l : List AnomalyResult) (counts : AlertCounts)
    (h : trigger_alerts nH nM nL l = Except.ok counts) :
    counts =
      { High := (l.filter (fun a => decide (a.severity = "High"))).length
        Medium := (l.filter (fun a => decide (a.severity = "Medium"))).length
        Low := (l.filter (fun a => decide (a.severity = "Low"))).length } := by
  simp only [trigger_alerts] at h
  split at h
  · exact absurd h (by simp)
  · split at h
    · exact absurd h (by simp)
    · split at h
      · exact absurd h (by simp)
      · simpa [eq_comm] using h

theorem trigger_alerts_high_error (e : String) (nM nL : Except String Unit)
    (l : List AnomalyResult)
    (hne : (l.filter (fun a => decide (a.severity = "High"))).isEmpty = false) :
    trigger_alerts (Except.error e) nM nL l = Except.error e := by
  simp only [trigger_alerts]
  rw [if_neg (by simp [hne])]

/-! ### Claim theorems -/

/-- C1: for every series of at least 7 daily costs with nonzero baseline
standard deviation, the deviation score of every point of the series (the
most recent point included) equals `(cost − mean) / stddev`, where `mean`
and `stddev` are computed once over the first `n − 1` costs
(`costs.dropLast`, i.e. all points except the most recent), and every
emitted record's score and expected cost use that same unchanged baseline. -/
theorem c1_single_baseline_scores (cfg : Config) (r : ResourceSeries)
    (h7 : 7 ≤ r.series.length)
    (hstd : npStd (costsOf r).dropLast ≠ 0) :
    (∀ i (h1 : i < (seriesZScores (costsOf r)).length)
        (h2 : i < (costsOf r).length),
      (seriesZScores (costsOf r)).get ⟨i, h1⟩ =
        ((costsOf r).get ⟨i, h2⟩ - npMean (costsOf r).dropLast) /
          npStd (costsOf r).dropLast) ∧
    ∀ a ∈ detectResource cfg r,
      a.z_score = (a.actual_cost - npMean (costsOf r).dropLast) /
          npStd (costsOf r).dropLast ∧
      a.expected_cost = npMean (costsOf r).dropLast := by
  constructor
  · intro i h1 h2
    simp [seriesZScores, zScoreOf]
  · intro a ha
    obtain ⟨he, hz, _⟩ := record_fields cfg r a ha
    exact ⟨hz, he⟩

/-- C1 witness: at the concrete series `demoR` (seven days, baseline mean 12
and population stddev 2) the hypotheses hold and the conclusion follows by
applying the theorem. -/
theorem c1_witness :
    7 ≤ demoR.series.length ∧ npStd (costsOf demoR).dropLast ≠ 0 ∧
    ((∀ i (h1 : i < (seriesZScores (costsOf demoR)).length)
        (h2 : i < (costsOf demoR).length),
      (seriesZScores (costsOf demoR)).get ⟨i, h1⟩ =
        ((costsOf demoR).get ⟨i, h2⟩ - npMean (costsOf demoR).dropLast) /
          npStd (costsOf demoR).dropLast) ∧
    ∀ a ∈ detectResource defaultConfig demoR,
      a.z_score = (a.actual_cost - npMean (costsOf demoR).dropLast) /
          npStd (costsOf demoR).dropLast ∧
      a.expected_cost = npMean (costsOf demoR).dropLast) :=
  ⟨by simp [demoR], demoR_std_ne,
    c1_single_baseline_scores defaultConfig demoR (by simp [demoR]) demoR_std_ne⟩

/-- C2: a scored point yields an `AnomalyResult` if and only if
`|deviationScore| ≥ zScoreThreshold` and `cost ≥ minCostThreshold`; a point
failing either condition (in particular a large deviation on a cost below
`minCostThreshold`) produces no record at all, and the per-resource output
is exactly the filtered classification of the series. -/
theorem c2_emission_iff (cfg : Config) (r : ResourceSeries)
    (h7 : ¬ r.series.length < 7) (hstd : npStd (costsOf r).dropLast ≠ 0) :
    detectResource cfg r =
      r.series.filterMap
        (classifyPoint cfg r.resource_id r.subscription_id
          (npMean (costsOf r).dropLast) (npStd (costsOf r).dropLast)) ∧
    ∀ (rid sid : String) (m s : ℝ) (dc : String × ℝ),
      (classifyPoint cfg rid sid m s dc).isSome = true ↔
        (|zScoreOf m s dc.2| ≥ cfg.z_score_threshold ∧
          dc.2 ≥ cfg.min_cost_threshold) := by
  constructor
  · rw [detectResource, detectResourceWithCarry_pos cfg r h7 hstd]
  · intro rid sid m s dc
    exact classifyPoint_isSome_iff cfg rid sid m s dc

/-- C2 witness: at `demoR` the hypotheses hold and the conclusion follows by
applying the theorem. -/
theorem c2_witness :
    ¬ demoR.series.length < 7 ∧ npStd (costsOf demoR).dropLast ≠ 0 ∧
    (detectResource defaultConfig demoR =
      demoR.series.filterMap
        (classifyPoint defaultConfig demoR.resource_id demoR.subscription_id
          (npMean (costsOf demoR).dropLast) (npStd (costsOf demoR).dropLast)) ∧
    ∀ (rid sid : String) (m s : ℝ) (dc : String × ℝ),
      (classifyPoint defaultConfig rid sid m s dc).isSome = true ↔
        (|zScoreOf m s dc.2| ≥ defaultConfig.z_score_threshold ∧
          dc.2 ≥ defaultConfig.min_cost_threshold)) :=
  ⟨demoR_length, demoR_std_ne,
    c2_emission_iff defaultConfig demoR demoR_length demoR_std_ne⟩

/-- C3: severity is decided High first (`|z| ≥ 3 ∨ |cost − mean| ≥ 1000`),
then Medium (`|z| ≥ 2 ∨ |cost − mean| ≥ 100`), else Low; a record matching
both the High and the Medium thresholds is High; and every emitted record's
severity is `_determine_severity` of its score, actual cost and expected
cost. -/
theorem c3_severity_priority (z c m : ℝ) (cfg : Config) (r : ResourceSeries)
    (a : AnomalyResult) (ha : a ∈ detectResource cfg r) :
    (_determine_severity z c m = "High" ↔ (|z| ≥ 3 ∨ |c - m| ≥ 1000)) ∧
    (_determine_severity z c m = "Medium" ↔
      (¬(|z| ≥ 3 ∨ |c - m| ≥ 1000) ∧ (|z| ≥ 2 ∨ |c - m| ≥ 100))) ∧
    (_determine_severity z c m = "Low" ↔
      (¬(|z| ≥ 3 ∨ |c - m| ≥ 1000) ∧ ¬(|z| ≥ 2 ∨ |c - m| ≥ 100))) ∧
    ((|z| ≥ 3 ∨ |c - m| ≥ 1000) → (|z| ≥ 2 ∨ |c - m| ≥ 100) →
      _determine_severity z c m = "High") ∧
    a.severity = _determine_severity a.z_score a.actual_cost a.expected_cost := by
  obtain ⟨_, _, _, _, hsev, _⟩ := record_fields cfg r a ha
  refine ⟨?_, ?_, ?_, ?_, hsev⟩ <;>
    by_cases h1 : (|z| ≥ 3 ∨ |c - m| ≥ 1000) <;>
    by_cases h2 : (|z| ≥ 2 ∨ |c - m| ≥ 100) <;>
    simp [_determine_severity, h1, h2]

/-- C3 witness: instantiated at the concrete score 4, cost 20, mean 12 and
the concrete emitted record `demoRecord` of `demoR`. -/
theorem c3_witness :
    demoRecord ∈ detectResource defaultConfig demoR ∧
    ((_determine_severity 4 20 12 = "High" ↔
        (|(4 : ℝ)| ≥ 3 ∨ |(20 : ℝ) - 12| ≥ 1000)) ∧
    (_determine_severity 4 20 12 = "Medium" ↔
      (¬(|(4 : ℝ)| ≥ 3 ∨ |(20 : ℝ) - 12| ≥ 1000) ∧
        (|(4 : ℝ)| ≥ 2 ∨ |(20 : ℝ) - 12| ≥ 100))) ∧
    (_determine_severity 4 20 12 = "Low" ↔
      (¬(|(4 : ℝ)| ≥ 3 ∨ |(20 : ℝ) - 12| ≥ 1000) ∧
        ¬(|(4 : ℝ)| ≥ 2 ∨ |(20 : ℝ) - 12| ≥ 100))) ∧
    ((|(4 : ℝ)| ≥ 3 ∨ |(20 : ℝ) - 12| ≥ 1000) →
      (|(4 : ℝ)| ≥ 2 ∨ |(20 : ℝ) - 12| ≥ 100) →
      _determine_severity 4 20 12 = "High") ∧
    demoRecord.severity =
      _determine_severity demoRecord.z_score demoRecord.actual_cost
        demoRecord.expected_cost) :=
  ⟨by rw [detect_demo]; exact List.mem_singleton.mpr rfl,
    c3_severity_priority 4 20 12 defaultConfig demoR demoRecord
      (by rw [detect_demo]; exact List.mem_singleton.mpr rfl)⟩

/-- C4 counterexample: the refreshed trailing-7-day baseline is NOT retained
as the seed baseline for the next incremental run.  For the concrete scored
series `oldR` (costs 0,2,0,2,0,2,0,2) the post-scoring refresh leaves the
baseline variables holding mean `8/7` (the trailing 7-day mean), but a
subsequent run on the series with a new day appended computes its scoring
mean over all-but-last of the extended series, i.e. over the full old
series, which is `1 ≠ 8/7`. -/
theorem c4_counterexample :
    ((detectResourceWithCarry defaultConfig oldR).2.map Baseline.mean) =
      some (8 / 7) ∧
    npMean (costsOf (appendDay oldR ("d9", 100))).dropLast = 1 ∧
    (8 / 7 : ℝ) ≠ 1 := by
  refine ⟨?_, ?_, by norm_num⟩
  · rw [detectResourceWithCarry_pos defaultConfig oldR oldR_length oldR_std_ne]
    simp [lastN_oldR, npMean_last7_oldR]
  · have hc : (costsOf (appendDay oldR ("d9", 100))).dropLast = costsOf oldR := by
      simp [costsOf, appendDay]
    rw [hc, costsOf_oldR, npMean_oldR_full]

/-- C4 amended: after scoring a series, the baseline variables are
reassigned to the mean and standard deviation of the trailing 7-day window
(`costs[-7:]`), and the current run's scores are unaffected by this refresh
(every emitted record uses the pre-refresh baseline over `costs[:-1]`);
however the refreshed baseline is not retained for any later use — a
subsequent run on the series with a new day appended recomputes its scoring
baseline from all but the last point of the extended series (i.e. from the
whole old series), not from the refreshed trailing window. -/
theorem c4_refresh_two_phase (cfg : Config) (r : ResourceSeries)
    (h7 : ¬ r.series.length < 7) (hstd : npStd (costsOf r).dropLast ≠ 0) :
    (detectResourceWithCarry cfg r).2 =
      some { mean := npMean (lastN 7 (costsOf r))
             std := npStd (lastN 7 (costsOf r)) } ∧
    (∀ a ∈ (detectResourceWithCarry cfg r).1,
      a.expected_cost = npMean (costsOf r).dropLast ∧
      a.z_score = (a.actual_cost - npMean (costsOf r).dropLast) /
        npStd (costsOf r).dropLast) ∧
    (∀ dc : String × ℝ,
      npMean (costsOf (appendDay r dc)).dropLast = npMean (costsOf r) ∧
      npStd (costsOf (appendDay r dc)).dropLast = npStd (costsOf r)) := by
  refine ⟨?_, ?_, ?_⟩
  · rw [detectResourceWithCarry_pos cfg r h7 hstd]
  · intro a ha
    obtain ⟨he, hz, _⟩ := record_fields cfg r a ha
    exact ⟨he, hz⟩
  · intro dc
    have hc : (costsOf (appendDay r dc)).dropLast = costsOf r := by
      simp [costsOf, appendDay]
    rw [hc]
    exact ⟨rfl, rfl⟩

/-- C4 witness: at the concrete series `oldR` the hypotheses hold and the
amended conclusion follows by applying the theorem. -/
theorem c4_witness :
    ¬ oldR.series.length < 7 ∧ npStd (costsOf oldR).dropLast ≠ 0 ∧
    ((detectResourceWithCarry defaultConfig oldR).2 =
      some { mean := npMean (lastN 7 (costsOf oldR))
             std := npStd (lastN 7 (costsOf oldR)) } ∧
    (∀ a ∈ (detectResourceWithCarry defaultConfig oldR).1,
      a.expected_cost = npMean (costsOf oldR).dropLast ∧
      a.z_score = (a.actual_cost - npMean (costsOf oldR).dropLast) /
        npStd (costsOf oldR).dropLast) ∧
    (∀ dc : String × ℝ,
      npMean (costsOf (appendDay oldR dc)).dropLast = npMean (costsOf oldR) ∧
      npStd (costsOf (appendDay oldR dc)).dropLast = npStd (costsOf oldR))) :=
  ⟨oldR_length, oldR_std_ne,
    c4_refresh_two_phase defaultConfig oldR oldR_length oldR_std_ne⟩

/-- C5 counterexample: a failing persistence collaborator DOES abort the run
and the returned response does not report the computed anomaly count.  At
the concrete input `[demoR]` (which yields exactly one anomaly) with a blob
client configured and an upload that raises, `main` returns the 500
`serverError` response carrying only the error message. -/
theorem c5_counterexample :
    main (some ("sub", 30)) [demoR] defaultConfig true (Except.error "boom")
      "blob" (Except.ok ()) (Except.ok ()) (Except.ok ()) =
      HttpResponse.serverError "boom" ∧
    (detect_anomalies defaultConfig [demoR]).length = 1 := by
  constructor
  · simp [main, save_anomaly_results]
  · rw [detect_all_demo]
    rfl

/-- C5 amended: when the persistence collaborator raises (with a blob client
configured), or when the high-severity notification collaborator raises
while there is at least one High anomaly, the exception is re-raised, the
run aborts, and the caller receives the 500 error response carrying only
the error message — the computed `AnomalyResult`s and `AlertCounts` are not
reported to the caller. -/
theorem c5_sink_failure_aborts (sid : String) (days : Nat)
    (costData : List ResourceSeries) (cfg : Config) (blobName : String)
    (e : String) (nH nM nL : Except String Unit)
    (hne : costData.isEmpty = false) :
    main (some (sid, days)) costData cfg true (Except.error e) blobName
      nH nM nL = HttpResponse.serverError e ∧
    (((detect_anomalies cfg costData).filter
        (fun a => decide (a.severity = "High"))).isEmpty = false →
      ∀ hasBlob : Bool,
        main (some (sid, days)) costData cfg hasBlob (Except.ok ()) blobName
          (Except.error e) nM nL = HttpResponse.serverError e) := by
  constructor
  · simp only [main]
    rw [if_neg (by simp [hne])]
    simp [save_anomaly_results]
  · intro hhigh hasBlob
    simp only [main]
    rw [if_neg (by simp [hne])]
    cases hasBlob <;>
      simp [save_anomaly_results, trigger_alerts_high_error e nM nL _ hhigh]

/-- C5 witness: at the concrete run over `[demoR]` (one High anomaly) the
hypotheses hold and the amended conclusion follows by applying the
theorem. -/
theorem c5_witness :
    ([demoR] : List ResourceSeries).isEmpty = false ∧
    ((detect_anomalies defaultConfig [demoR]).filter
        (fun a => decide (a.severity = "High"))).isEmpty = false ∧
    (main (some ("sub", 30)) [demoR] defaultConfig true (Except.error "boom")
      "blob" (Except.ok ()) (Except.ok ()) (Except.ok ()) =
      HttpResponse.serverError "boom" ∧
    (((detect_anomalies defaultConfig [demoR]).filter
        (fun a => decide (a.severity = "High"))).isEmpty = false →
      ∀ hasBlob : Bool,
        main (some ("sub", 30)) [demoR] defaultConfig hasBlob (Except.ok ())
          "blob" (Except.error "boom") (Except.ok ()) (Except.ok ()) =
          HttpResponse.serverError "boom")) :=
  ⟨rfl, by rw [detect_all_demo]; rfl,
    c5_sink_failure_aborts "sub" 30 [demoR] defaultConfig "blob" "boom"
      (Except.ok ()) (Except.ok ()) (Except.ok ()) rfl⟩

/-- C6: every emitted record's confidence equals
`min 1 (|deviationScore| / 3)`; consequently confidence lies in `[0, 1]`,
and it equals 1 exactly when `|deviationScore| ≥ 3`. -/
theorem c6_confidence_saturation (cfg : Config) (r : ResourceSeries)
    (a : AnomalyResult) (ha : a ∈ detectResource cfg r) :
    a.confidence = min 1 (|a.z_score| / 3) ∧
    0 ≤ a.confidence ∧ a.confidence ≤ 1 ∧
    (a.confidence = 1 ↔ 3 ≤ |a.z_score|) := by
  obtain ⟨_, _, _, _, _, hconf, _⟩ := record_fields cfg r a ha
  refine ⟨hconf, ?_, ?_, ?_⟩
  · rw [hconf]
    exact le_min (by norm_num) (by positivity)
  · rw [hconf]
    exact min_le_left _ _
  · rw [hconf, min_eq_left_iff]
    constructor
    · intro h
      linarith
    · intro h
      linarith

/-- C6 witness: at the concrete emitted record `demoRecord` of `demoR`
(score 4, confidence 1) the hypothesis holds and the conclusion follows by
applying the theorem. -/
theorem c6_witness :
    demoRecord ∈ detectResource defaultConfig demoR ∧
    (demoRecord.confidence = min 1 (|demoRecord.z_score| / 3) ∧
    0 ≤ demoRecord.confidence ∧ demoRecord.confidence ≤ 1 ∧
    (demoRecord.confidence = 1 ↔ 3 ≤ |demoRecord.z_score|)) :=
  ⟨by rw [detect_demo]; exact List.mem_singleton.mpr rfl,
    c6_confidence_saturation defaultConfig demoR demoRecord
      (by rw [detect_demo]; exact List.mem_singleton.mpr rfl)⟩

/-- C7: for every emitted record, the direction (the code's `anomaly_type`,
the spec's `direction`, with the code's literal `"Spike"` embedding the
spec's `Surge`) is `"Spike"` exactly when `actualCost > expectedCost`,
`"Drop"` otherwise, and the direction never contradicts the sign of the
variance. -/
theorem c7_direction_iff (cfg : Config) (r : ResourceSeries)
    (a : AnomalyResult) (ha : a ∈ detectResource cfg r) :
    (a.anomaly_type = "Spike" ↔ a.actual_cost > a.expected_cost) ∧
    (a.anomaly_type = "Drop" ↔ ¬ a.actual_cost > a.expected_cost) ∧
    (a.anomaly_type = "Spike" ↔ 0 < a.variance) := by
  obtain ⟨_, _, hvar, hdir, _⟩ := record_fields cfg r a ha
  refine ⟨?_, ?_, ?_⟩
  · rw [hdir]
    by_cases h : a.actual_cost > a.expected_cost <;> simp [h]
  · rw [hdir]
    by_cases h : a.actual_cost > a.expected_cost <;> simp [h]
  · rw [hdir, hvar, sub_pos]
    by_cases h : a.actual_cost > a.expected_cost <;> simp [h]

/-- C7 witness: at the concrete emitted record `demoRecord` of `demoR`
(actual 20 > expected 12, direction `"Spike"`) the hypothesis holds and the
conclusion follows by applying the theorem. -/
theorem c7_witness :
    demoRecord ∈ detectResource defaultConfig demoR ∧
    ((demoRecord.anomaly_type = "Spike" ↔
        demoRecord.actual_cost > demoRecord.expected_cost) ∧
    (demoRecord.anomaly_type = "Drop" ↔
      ¬ demoRecord.actual_cost > demoRecord.expected_cost) ∧
    (demoRecord.anomaly_type = "Spike" ↔ 0 < demoRecord.variance)) :=
  ⟨by rw [detect_demo]; exact List.mem_singleton.mpr rfl,
    c7_direction_iff defaultConfig demoR demoRecord
      (by rw [detect_demo]; exact List.mem_singleton.mpr rfl)⟩

/-- C8: a resource whose series has fewer than 7 points, or whose baseline
standard deviation over the first `n − 1` costs is zero, produces no
`AnomalyResult` and is skipped silently: the run over any surrounding list
of resources produces exactly the records of the remaining resources. -/
theorem c8_degenerate_skipped (cfg : Config) (r : ResourceSeries)
    (hdeg : r.series.length < 7 ∨ npStd (costsOf r).dropLast = 0) :
    detectResource cfg r = [] ∧
    ∀ xs ys : List ResourceSeries,
      detect_anomalies cfg (xs ++ r :: ys) =
        detect_anomalies cfg xs ++ detect_anomalies cfg ys := by
  have hnil : detectResource cfg r = [] := by
    rcases hdeg with h | h
    · rw [detectResource, detectResourceWithCarry_short cfg r h]
    · rw [detectResource, detectResourceWithCarry_flat cfg r h]
  refine ⟨hnil, ?_⟩
  intro xs ys
  simp [detect_anomalies, List.flatMap_append, hnil]

/-- C8 witness: the concrete perfectly flat series `flatR` (zero baseline
standard deviation) is skipped, including inside a run that also contains
`demoR`. -/
theorem c8_witness :
    (flatR.series.length < 7 ∨ npStd (costsOf flatR).dropLast = 0) ∧
    (detectResource defaultConfig flatR = [] ∧
    ∀ xs ys : List ResourceSeries,
      detect_anomalies defaultConfig (xs ++ flatR :: ys) =
        detect_anomalies defaultConfig xs ++ detect_anomalies defaultConfig ys) :=
  ⟨Or.inr flatR_std, c8_degenerate_skipped defaultConfig flatR (Or.inr flatR_std)⟩

/-- C9: whenever `trigger_alerts` returns an `AlertCounts` for the anomalies
of a run, each tier's count is the number of that run's records of that
severity (0 when the tier is empty), and the three counts sum to the total
number of records of the run. -/
theorem c9_tally_partition (cfg : Config) (rs : List ResourceSeries)
    (nH nM nL : Except String Unit) (counts : AlertCounts)
    (h : trigger_alerts nH nM nL (detect_anomalies cfg rs) = Except.ok counts) :
    counts.High = ((detect_anomalies cfg rs).filter
      (fun a => decide (a.severity = "High"))).length ∧
    counts.Medium = ((detect_anomalies cfg rs).filter
      (fun a => decide (a.severity = "Medium"))).length ∧
    counts.Low = ((detect_anomalies cfg rs).filter
      (fun a => decide (a.severity = "Low"))).length ∧
    counts.High + counts.Medium + counts.Low =
      (detect_anomalies cfg rs).length := by
  have hc := trigger_alerts_ok nH nM nL _ counts h
  subst hc
  have hall : ∀ a ∈ detect_anomalies cfg rs,
      a.severity = "High" ∨ a.severity = "Medium" ∨ a.severity = "Low" := by
    intro a ha
    obtain ⟨r, _, har⟩ := List.mem_flatMap.mp ha
    obtain ⟨_, _, _, _, hsev, _⟩ := record_fields cfg r a har
    rw [hsev]
    exact severity_range _ _ _
  exact ⟨rfl, rfl, rfl, three_filter_length _ hall⟩

/-- C9 witness: the concrete run over `[demoR]` yields one High record; the
routing succeeds and the tally is High 1, Medium 0, Low 0, summing to the
total of 1. -/
theorem c9_witness :
    trigger_alerts (Except.ok ()) (Except.ok ()) (Except.ok ())
      (detect_anomalies defaultConfig [demoR]) =
      Except.ok { High := 1, Medium := 0, Low := 0 } ∧
    ((AlertCounts.mk 1 0 0).High = ((detect_anomalies defaultConfig [demoR]).filter
      (fun a => decide (a.severity = "High"))).length ∧
    (AlertCounts.mk 1 0 0).Medium = ((detect_anomalies defaultConfig [demoR]).filter
      (fun a => decide (a.severity = "Medium"))).length ∧
    (AlertCounts.mk 1 0 0).Low = ((detect_anomalies defaultConfig [demoR]).filter
      (fun a => decide (a.severity = "Low"))).length ∧
    (AlertCounts.mk 1 0 0).High + (AlertCounts.mk 1 0 0).Medium +
      (AlertCounts.mk 1 0 0).Low = (detect_anomalies defaultConfig [demoR]).length) :=
  ⟨by rw [detect_all_demo]; exact trigger_demo,
    c9_tally_partition defaultConfig [demoR] (Except.ok ()) (Except.ok ())
      (Except.ok ()) (AlertCounts.mk 1 0 0)
      (by rw [detect_all_demo]; exact trigger_demo)⟩

/-- C10: the standard deviation used throughout detection is the population
standard deviation (the square root of the mean of squared deviations, not
the Bessel-corrected sample standard deviation exemplified by `besselStd`,
from which it differs already on `[0, 2]`), and for every window of at
least two points it is zero exactly when all costs in the window are
equal. -/
theorem c10_population_stddev (l : List ℝ) (h2 : 2 ≤ l.length) :
    npStd l = Real.sqrt (((l.map (fun x => (x - npMean l) ^ 2)).sum) / l.length) ∧
    (npStd l = 0 ↔ ∀ x ∈ l, ∀ y ∈ l, x = y) ∧
    npStd [0, 2] = 1 ∧ besselStd [0, 2] = Real.sqrt 2 ∧
    npStd [0, 2] ≠ besselStd [0, 2] := by
  have hne : l ≠ [] := by
    intro h
    subst h
    simp at h2
  have h01 : npStd [(0 : ℝ), 2] = 1 := by
    have hv : npVar [(0 : ℝ), 2] = 1 := by
      norm_num [npVar, npMean]
    rw [npStd, hv, Real.sqrt_one]
  have hb : besselStd [(0 : ℝ), 2] = Real.sqrt 2 := by
    norm_num [besselStd, npMean]
  refine ⟨rfl, ?_, h01, hb, ?_⟩
  · rw [npStd_eq_zero_iff l hne]
    constructor
    · intro hall x hx y hy
      rw [hall x hx, hall y hy]
    · intro hxy
      obtain ⟨a, t, rfl⟩ := List.exists_cons_of_ne_nil hne
      intro x hx
      exact (npMean_const _ x hne (fun z hz => hxy z hz x hx)).symm
  · rw [h01, hb]
    intro h
    have h2s := Real.sq_sqrt (by norm_num : (0 : ℝ) ≤ 2)
    rw [← h] at h2s
    norm_num at h2s

/-- C10 witness: applied at the concrete two-point window `[0, 2]`, whose
population standard deviation is 1 (versus the sample value `√2`). -/
theorem c10_witness :
    2 ≤ ([(0 : ℝ), 2] : List ℝ).length ∧
    (npStd [(0 : ℝ), 2] = Real.sqrt
      ((([(0 : ℝ), 2].map (fun x => (x - npMean [(0 : ℝ), 2]) ^ 2)).sum) /
        ([(0 : ℝ), 2] : List ℝ).length) ∧
    (npStd [(0 : ℝ), 2] = 0 ↔ ∀ x ∈ ([(0 : ℝ), 2] : List ℝ),
      ∀ y ∈ ([(0 : ℝ), 2] : List ℝ), x = y) ∧
    npStd [0, 2] = 1 ∧ besselStd [0, 2] = Real.sqrt 2 ∧
    npStd [0, 2] ≠ besselStd [0, 2]) :=
  ⟨by simp, c10_population_stddev [(0 : ℝ), 2] (by simp)⟩
